import Mathlib

/-!
Shallow embedding of the wormhole-ibc / wormchain-ibc-receiver CosmWasm
contracts (repository `wormhole`), restricted to the components the
verification claims are about: the version-gated migration guard, the
governance-VAA handler, the channel resolver, and the message relay.

External collaborators (the wormhole core bridge, the VAA verifier, the
serde decoders, the IBC channel directory) are modelled as parameters
bundled in an `Externals` record, as the spec designates them out of
scope.  Machine integers are modelled as `Nat` (no arithmetic in this
code can overflow the source's `u64`/`u16` ranges in a way the claims
depend on).  Fallible Rust code returning `Result<_, anyhow::Error>`
becomes `Except String _`, with the error strings taken verbatim from
the source (`ContractError` display strings, `StdError` messages and
`context` messages).
-/

deriving instance DecidableEq for Except

/-- Model of `cosmwasm_std::Attribute`: a key/value pair carried on a
response or event. -/
structure Attribute where
  key : String
  value : String
  deriving DecidableEq, Repr

/-- Model of `cosmwasm_std::Event`: a typed bundle of attributes. -/
structure Event where
  ty : String
  attributes : List Attribute
  deriving DecidableEq, Repr

/-- Model of the sub-messages a `cosmwasm_std::Response` can carry.  The
only message this contract ever constructs is `IbcMsg::SendPacket`
(whose `data` is the serde-serialized packet, a byte string). -/
inductive SubMsg where
  | SendPacket (channel_id : String) (data : List Nat) (timeout : Nat)
  deriving DecidableEq, Repr

/-- Model of `cosmwasm_std::Response`: sub-messages, attributes and
events (the `data` field is never set by this contract and is omitted). -/
structure Response where
  messages : List SubMsg
  attributes : List Attribute
  events : List Event
  deriving DecidableEq, Repr

/-- Model of `Response::default()` / `Response::new()`: empty response. -/
def Response.default : Response := ⟨[], [], []⟩

/-- Model of `Response::new()`. -/
def Response.new : Response := Response.default

/-- Model of `Response::add_attribute`: appends one attribute. -/
def Response.add_attribute (r : Response) (key value : String) : Response :=
  { r with attributes := r.attributes ++ [⟨key, value⟩] }

/-- Model of `Response::add_event`: appends one event. -/
def Response.add_event (r : Response) (e : Event) : Response :=
  { r with events := r.events ++ [e] }

/-- Model of `Event::new`. -/
def Event.new (ty : String) : Event := ⟨ty, []⟩

/-- Model of `Event::add_attribute`: appends one attribute to an event. -/
def Event.add_attribute (e : Event) (key value : String) : Event :=
  { e with attributes := e.attributes ++ [⟨key, value⟩] }

/-! ### Semantic versions

Model of the `semver` crate (version 1.x) as used by both `migrate`
entry points: `Version::parse` on a version string, and the derived
total order (`saved_version >= new_version`).  The crate is an external
dependency; the model follows its documented grammar
`major.minor.patch[-pre][+build]` and its `Ord` implementation
(numeric identifiers without leading zeros; prerelease identifiers
compared numeric-before-alphanumeric; an empty prerelease sorts above
any non-empty one; build metadata as the final tiebreak). -/

namespace Semver

/-- Parsed semantic version: numeric core plus prerelease and build
identifier lists (each identifier kept as its character list). -/
structure Version where
  major : Nat
  minor : Nat
  patch : Nat
  pre : List (List Char)
  build : List (List Char)
  deriving DecidableEq, Repr

/-- Characters allowed in prerelease/build identifiers: ASCII
alphanumerics and hyphen. -/
def isIdentChar (c : Char) : Bool :=
  c.isDigit || (('a' ≤ c && c ≤ 'z') || ('A' ≤ c && c ≤ 'Z')) || c == '-'

/-- Splits off the longest prefix of characters satisfying `p`. -/
def takeDrop (p : Char → Bool) : List Char → List Char × List Char
  | [] => ([], [])
  | c :: cs =>
    if p c then
      let (a, b) := takeDrop p cs
      (c :: a, b)
    else ([], c :: cs)

/-- Numeric value of a digit list (most significant first). -/
def digitsToNat (l : List Char) : Nat :=
  l.foldl (fun acc c => acc * 10 + (c.toNat - 48)) 0

/-- Detects a numeric identifier with a forbidden leading zero. -/
def numericLeadingZero : List Char → Bool
  | '0' :: _ :: _ => true
  | _ => false

/-- Parses one numeric identifier (digits, no leading zero) off the
front of the input, returning its value and the rest. -/
def parseNumericIdent (l : List Char) : Option (Nat × List Char) :=
  let (ds, rest) := takeDrop Char.isDigit l
  if ds.isEmpty then none
  else if numericLeadingZero ds then none
  else some (digitsToNat ds, rest)

/-- Consumes a literal dot. -/
def expectDot : List Char → Option (List Char)
  | '.' :: cs => some cs
  | _ => none

/-- Splits a character list at every dot. -/
def splitOnDot : List Char → List (List Char)
  | [] => [[]]
  | '.' :: cs => [] :: splitOnDot cs
  | c :: cs =>
    match splitOnDot cs with
    | [] => [[c]]
    | g :: gs => (c :: g) :: gs

/-- Splits a character list at the first occurrence of `t`, if any. -/
def splitAtFirst (t : Char) : List Char → List Char × Option (List Char)
  | [] => ([], none)
  | c :: cs =>
    if c == t then ([], some cs)
    else
      let (a, b) := splitAtFirst t cs
      (c :: a, b)

/-- Validity of one prerelease identifier: nonempty, alphanumeric or
hyphen, and when fully numeric no leading zero. -/
def validPreIdent (s : List Char) : Bool :=
  !s.isEmpty && s.all isIdentChar && !(s.all Char.isDigit && numericLeadingZero s)

/-- Validity of one build identifier: nonempty, alphanumeric or hyphen
(leading zeros allowed). -/
def validBuildIdent (s : List Char) : Bool :=
  !s.isEmpty && s.all isIdentChar

/-- Parses the optional `-pre` suffix (everything before any `+`). -/
def parsePre (l : List Char) : Option (List (List Char)) :=
  match l with
  | [] => some []
  | '-' :: preChars =>
    let ids := splitOnDot preChars
    if ids.all validPreIdent then some ids else none
  | _ => none

/-- Model of `semver::Version::parse`. -/
def parse (s : String) : Option Version :=
  let (core, buildTail) := splitAtFirst '+' s.data
  match parseNumericIdent core with
  | none => none
  | some (major, r1) =>
    match expectDot r1 with
    | none => none
    | some r2 =>
      match parseNumericIdent r2 with
      | none => none
      | some (minor, r3) =>
        match expectDot r3 with
        | none => none
        | some r4 =>
          match parseNumericIdent r4 with
          | none => none
          | some (patch, r5) =>
            match parsePre r5 with
            | none => none
            | some pre =>
              match buildTail with
              | none => some ⟨major, minor, patch, pre, []⟩
              | some bchars =>
                let ids := splitOnDot bchars
                if ids.all validBuildIdent then
                  some ⟨major, minor, patch, pre, ids⟩
                else none

/-- Comparison of two prerelease identifiers, after the crate: numeric
sorts below alphanumeric; numerics compare by length then lexically
(equivalent to numeric value absent leading zeros); alphanumerics
compare lexically. -/
def compareIdent (a b : List Char) : Ordering :=
  match a.all Char.isDigit, b.all Char.isDigit with
  | true, true =>
    match compare a.length b.length with
    | .eq => compare a b
    | o => o
  | true, false => .lt
  | false, true => .gt
  | false, false => compare a b

/-- Element-wise comparison of identifier lists; a strict prefix sorts
first. -/
def compareIdentList : List (List Char) → List (List Char) → Ordering
  | [], [] => .eq
  | [], _ :: _ => .lt
  | _ :: _, [] => .gt
  | a :: as, b :: bs =>
    match compareIdent a b with
    | .eq => compareIdentList as bs
    | o => o

/-- Comparison of two build identifiers, after the crate: when both are
fully numeric, by length then lexically; otherwise lexically. -/
def compareBuildIdent (a b : List Char) : Ordering :=
  match a.all Char.isDigit, b.all Char.isDigit with
  | true, true =>
    match compare a.length b.length with
    | .eq => compare a b
    | o => o
  | _, _ => compare a b

/-- Element-wise comparison of build identifier lists. -/
def compareBuildList : List (List Char) → List (List Char) → Ordering
  | [], [] => .eq
  | [], _ :: _ => .lt
  | _ :: _, [] => .gt
  | a :: as, b :: bs =>
    match compareBuildIdent a b with
    | .eq => compareBuildList as bs
    | o => o

/-- Comparison of prerelease lists: an empty prerelease (a release)
sorts above any non-empty one; otherwise element-wise. -/
def comparePre : List (List Char) → List (List Char) → Ordering
  | [], [] => .eq
  | [], _ :: _ => .gt
  | _ :: _, [] => .lt
  | a :: as, b :: bs => compareIdentList (a :: as) (b :: bs)

/-- Model of the `Ord` instance on `semver::Version`: major, minor,
patch, prerelease, then build metadata. -/
def compareVer (a b : Version) : Ordering :=
  match compare a.major b.major with
  | .eq =>
    match compare a.minor b.minor with
    | .eq =>
      match compare a.patch b.patch with
      | .eq =>
        match comparePre a.pre b.pre with
        | .eq => compareBuildList a.build b.build
        | o => o
      | o => o
    | o => o
  | o => o

end Semver

/-! ### cw2 contract version bookkeeping -/

/-- Model of `cw2::ContractVersion`: the persisted name/version record. -/
structure ContractVersion where
  contract : String
  version : String
  deriving DecidableEq, Repr

/-! ### wormhole-sdk types

The `wormhole_sdk` crate is an external collaborator; the model below
keeps exactly the variants this contract consults and folds every other
chain identifier into `Unknown`. -/

/-- Model of `wormhole_sdk::Chain`, restricted to the variants the
contract compares against (`Any`, `Solana`, `Wormchain`); every other
numeric chain identifier is carried as `Unknown`. -/
inductive Chain where
  | Any
  | Solana
  | Wormchain
  | Unknown (id : Nat)
  deriving DecidableEq, Repr

/-- Model of `Chain::from(u16)`: wire identifier 0 is `Any`, 1 is
`Solana`, 3104 is `Wormchain`. -/
def Chain.of_u16 (id : Nat) : Chain :=
  if id = 0 then .Any
  else if id = 1 then .Solana
  else if id = 3104 then .Wormchain
  else .Unknown id

/-- Model of the `Display` rendering of a chain (used only as an event
attribute value; no claim constrains the exact text). -/
def Chain.display : Chain → String
  | .Any => "any"
  | .Solana => "solana"
  | .Wormchain => "wormchain"
  | .Unknown id => "unknown chain " ++ toString id

/-- Hexadecimal digit character for a nibble. -/
def hexDigit (n : Nat) : Char :=
  if n < 10 then Char.ofNat (48 + n) else Char.ofNat (87 + n)

/-- Model of the `Display` rendering of a `wormhole_sdk::Address`
(lowercase hex of the 32 bytes). -/
def addressDisplay (a : List Nat) : String :=
  ⟨a.foldr (fun b acc => hexDigit (b / 16 % 16) :: hexDigit (b % 16) :: acc) []⟩

/-- Modelled from the spec: `wormhole_sdk::GOVERNANCE_EMITTER`, the
fixed 32-byte governance authority address compiled into the contract
(the constant's crate is not under `src/`; the claims depend only on it
being one fixed value). -/
def GOVERNANCE_EMITTER : List Nat := List.replicate 31 0 ++ [4]

/-- Model of `wormhole_sdk::token::Action`, restricted to the variant
the contract handles plus one representative other variant for the
catch-all arm (named `TokenAction` because `Action` is taken by the
ambient library). -/
inductive TokenAction where
  | ContractUpgrade (new_contract : List Nat)
  | RegisterChain (chain : Chain) (emitter_address : List Nat)
  deriving DecidableEq, Repr

/-- Model of `wormhole_sdk::token::GovernancePacket`: target chain plus
action. -/
structure GovernancePacket where
  chain : Chain
  action : TokenAction
  deriving DecidableEq, Repr

/-- Model of the parsed-and-verified VAA returned by the core bridge's
`query_parse_and_verify_vaa` (the fields this contract reads). -/
structure ParsedVaa where
  emitter_chain : Nat
  emitter_address : List Nat
  payload : List Nat
  deriving DecidableEq, Repr

/-! ### UTF-8 decoding

Model of `String::from_utf8` on a byte list: standard UTF-8 decoding,
rejecting stray or missing continuation bytes, overlong encodings,
surrogate code points and code points above `0x10FFFF`. -/

/-- Decodes a byte list as UTF-8 into characters, or fails. -/
def utf8Chars : List Nat → Option (List Char)
  | [] => some []
  | b :: rest =>
    if b < 128 then
      (utf8Chars rest).map (fun cs => Char.ofNat b :: cs)
    else if b < 192 then none
    else if b < 224 then
      match rest with
      | b1 :: rest2 =>
        if 128 ≤ b1 && b1 < 192 then
          let cp := (b - 192) * 64 + (b1 - 128)
          if cp < 128 then none
          else (utf8Chars rest2).map (fun cs => Char.ofNat cp :: cs)
        else none
      | [] => none
    else if b < 240 then
      match rest with
      | b1 :: b2 :: rest3 =>
        if (128 ≤ b1 && b1 < 192) && (128 ≤ b2 && b2 < 192) then
          let cp := (b - 224) * 4096 + (b1 - 128) * 64 + (b2 - 128)
          if cp < 2048 then none
          else if 55296 ≤ cp && cp < 57344 then none
          else (utf8Chars rest3).map (fun cs => Char.ofNat cp :: cs)
        else none
      | _ => none
    else if b < 245 then
      match rest with
      | b1 :: b2 :: b3 :: rest4 =>
        if ((128 ≤ b1 && b1 < 192) && (128 ≤ b2 && b2 < 192)) && (128 ≤ b3 && b3 < 192) then
          let cp := (b - 240) * 262144 + (b1 - 128) * 4096 + (b2 - 128) * 64 + (b3 - 128)
          if cp < 65536 then none
          else if cp > 1114111 then none
          else (utf8Chars rest4).map (fun cs => Char.ofNat cp :: cs)
        else none
      | _ => none
    else none

/-- Model of `String::from_utf8` over a byte list. -/
def stringFromUtf8 (l : List Nat) : Option String :=
  (utf8Chars l).map (fun cs => ⟨cs⟩)

example : stringFromUtf8 [97, 98, 99, 100] = some "abcd" := by decide

/-! ### Shared cosmwasm runtime types -/

/-- Model of `cosmwasm_std::IbcEndpoint`. -/
structure IbcEndpoint where
  port_id : String
  channel_id : String
  deriving DecidableEq, Repr

/-- Model of `cosmwasm_std::IbcChannel` (the two fields the contract
reads). -/
structure IbcChannel where
  endpoint : IbcEndpoint
  counterparty_endpoint : IbcEndpoint
  deriving DecidableEq, Repr

/-- Model of `cosmwasm_std::BlockInfo`: block height and block time (in
seconds; the source's nanosecond `Timestamp` is only ever consumed via
`.seconds()` and `.plus_seconds`). -/
structure BlockInfo where
  height : Nat
  time : Nat
  deriving DecidableEq, Repr

/-- Model of `cosmwasm_std::TransactionInfo`. -/
structure TransactionInfo where
  index : Nat
  deriving DecidableEq, Repr

/-- Model of `cosmwasm_std::Env`: block info plus the optional
transaction context. -/
structure Env where
  block : BlockInfo
  transaction : Option TransactionInfo
  deriving DecidableEq, Repr

/-- Model of `cosmwasm_std::MessageInfo` (the `sender` field). -/
structure MessageInfo where
  sender : String
  deriving DecidableEq, Repr

/-- Model of the core bridge's `wormhole::msg::ExecuteMsg`, restricted
to the two variants the wrapper dispatches on. -/
inductive CoreExecuteMsg where
  | SubmitVAA (vaa : List Nat)
  | PostMessage (message : List Nat) (nonce : Nat)
  deriving DecidableEq, Repr

/-- Model of `msg::WormholeIbcPacketMsg`: the envelope sent over the
IBC channel. -/
inductive WormholeIbcPacketMsg where
  | Publish (msg : Response)
  deriving DecidableEq, Repr

/-- Model of the wormhole-ibc `msg::ExecuteMsg`. -/
inductive ExecuteMsg where
  | SubmitUpdateWormchainReceiverVAA (vaa : List Nat)
  | CoreExecute (core_msg : CoreExecuteMsg)
  deriving DecidableEq, Repr

/-! ### The wormhole-ibc contract -/

namespace WormholeIbc

/-- Persistent storage of the wormhole-ibc contract: the cw2 contract
version item and the `WORMCHAIN_IBC_RECEIVER_ADDR` item (declared in
the contract's `state.rs`; a singleton `Item<String>`).  The core
bridge's own storage items live under separate keys and are not
modelled. -/
structure Storage where
  contract_info : Option ContractVersion
  wormchain_ibc_receiver_addr : Option String
  deriving DecidableEq, Repr

/-- The contract name constant from `contract.rs`. -/
def CONTRACT_NAME : String := "crates.io:wormhole-ibc"

/-- Modelled from the spec: `PACKET_LIFETIME`, the fixed packet
lifetime constant declared in the contract's `ibc.rs` (file not under
`src/`); the claims depend only on it being one fixed value. -/
def PACKET_LIFETIME : Nat := 3600

/-- External collaborators of the contract, out of scope per the spec:
the build-supplied package version, the core bridge's VAA verifier and
`instantiate`/`execute`/`migrate` entry points, the serde decoders, and
the IBC channel directory. -/
structure Externals where
  contract_version : String
  verify_vaa : List Nat → Nat → Except String ParsedVaa
  parse_gov : List Nat → Except String GovernancePacket
  core_instantiate : Except String Response
  core_execute : MessageInfo → CoreExecuteMsg → Except String Response
  core_migrate : Except String Response
  list_channels : Except String (List IbcChannel)
  to_binary : WormholeIbcPacketMsg → Except String (List Nat)

/-- Model of `cw2::get_contract_version` on this contract's storage. -/
def get_contract_version (st : Storage) : Except String ContractVersion :=
  match st.contract_info with
  | some cv => .ok cv
  | none => .error "cw2 contract info not found"

/-- Model of `cw2::set_contract_version` on this contract's storage. -/
def set_contract_version (st : Storage) (name version : String) : Storage :=
  { st with contract_info := some ⟨name, version⟩ }

/-- Embedding of `instantiate` (contract.rs lines 27–40): write the
contract name/version, then delegate to the core bridge instantiation. -/
def instantiate (ext : Externals) (st : Storage) : Except String (Storage × Response) :=
  let st1 := set_contract_version st CONTRACT_NAME ext.contract_version
  match ext.core_instantiate with
  | .error _ => .error "wormhole core instantiation failed"
  | .ok r => .ok (st1, r)

/-- Embedding of `migrate` (contract.rs lines 43–64): check the stored
contract name, parse both versions, require strict increase, overwrite
the stored version, then delegate to the core bridge migration. -/
def migrate (ext : Externals) (st : Storage) : Except String (Storage × Response) :=
  match get_contract_version st with
  | .error e => .error e
  | .ok ver =>
    if ver.contract ≠ CONTRACT_NAME then
      .error "Can only upgrade from same type"
    else
      match Semver.parse ver.version with
      | none => .error "could not parse saved contract version"
      | some saved_version =>
        match Semver.parse ext.contract_version with
        | none => .error "could not parse new contract version"
        | some new_version =>
          if Semver.compareVer saved_version new_version ≠ .lt then
            .error "Cannot upgrade from a newer version"
          else
            let st1 := set_contract_version st CONTRACT_NAME ext.contract_version
            match ext.core_migrate with
            | .error _ => .error "wormhole core migration failed"
            | .ok r => .ok (st1, r)

/-- Embedding of `find_wormchain_channel_id` (contract.rs lines
137–150): first channel whose counterparty port is
`"wasm." ++ wormchain_addr`, else a not-found error carrying the
address. -/
def find_wormchain_channel_id : List IbcChannel → String → Except String String
  | [], wormchain_addr =>
    .error ("no channel connecting to wormchain contract " ++ wormchain_addr)
  | c :: cs, wormchain_addr =>
    if c.counterparty_endpoint.port_id = "wasm." ++ wormchain_addr then
      .ok c.endpoint.channel_id
    else find_wormchain_channel_id cs wormchain_addr

/-- Embedding of `post_message_ibc` (contract.rs lines 84–134).  Note
the `IbcMsg::SendPacket` value built at lines 127–131 is bound and
dropped, exactly as in the source, where the expression statement
discards it; the function returns `Response::default()`. -/
def post_message_ibc (ext : Externals) (env : Env) (info : MessageInfo)
    (msg : CoreExecuteMsg) (st : Storage) : Except String Response :=
  match ext.list_channels with
  | .error _ => .error "failed to query ibc channels"
  | .ok ibc_channels =>
    match st.wormchain_ibc_receiver_addr with
    | none => .error "could not load wormchain_ibc_receiver_addr"
    | some wormchain_ibc_receiver_addr =>
      match find_wormchain_channel_id ibc_channels wormchain_ibc_receiver_addr with
      | .error e => .error e
      | .ok channel_id =>
        let packet_timeout := env.block.time + PACKET_LIFETIME
        let block_height := toString env.block.height
        let tx_index := env.transaction.map (fun t => t.index)
        match ext.core_execute info msg with
        | .error _ => .error "wormhole core execution failed"
        | .ok res =>
          let res_with_tx_index :=
            match tx_index with
            | some index => res.add_attribute "message.tx_index" (toString index)
            | none => res
          let res_with_block_height :=
            res_with_tx_index.add_attribute "message.block_height" block_height
          let packet := WormholeIbcPacketMsg.Publish res_with_block_height
          match ext.to_binary packet with
          | .error e => .error e
          | .ok data =>
            let _dropped := SubMsg.SendPacket channel_id data packet_timeout
            .ok Response.default

/-- Companion to `post_message_ibc`: the components of the
`IbcMsg::SendPacket` the source constructs at lines 127–131 and
immediately drops — the resolved channel id, the `Publish` envelope
(pre-serialization), and the timeout. -/
def post_message_ibc_dropped_packet (ext : Externals) (env : Env) (info : MessageInfo)
    (msg : CoreExecuteMsg) (st : Storage) :
    Except String (String × WormholeIbcPacketMsg × Nat) :=
  match ext.list_channels with
  | .error _ => .error "failed to query ibc channels"
  | .ok ibc_channels =>
    match st.wormchain_ibc_receiver_addr with
    | none => .error "could not load wormchain_ibc_receiver_addr"
    | some wormchain_ibc_receiver_addr =>
      match find_wormchain_channel_id ibc_channels wormchain_ibc_receiver_addr with
      | .error e => .error e
      | .ok channel_id =>
        let packet_timeout := env.block.time + PACKET_LIFETIME
        let block_height := toString env.block.height
        let tx_index := env.transaction.map (fun t => t.index)
        match ext.core_execute info msg with
        | .error _ => .error "wormhole core execution failed"
        | .ok res =>
          let res_with_tx_index :=
            match tx_index with
            | some index => res.add_attribute "message.tx_index" (toString index)
            | none => res
          let res_with_block_height :=
            res_with_tx_index.add_attribute "message.block_height" block_height
          .ok (channel_id, WormholeIbcPacketMsg.Publish res_with_block_height, packet_timeout)

/-- Embedding of `handle_submit_wormchain_receiver_update_vaa`
(contract.rs lines 152–207): verify the VAA, require the fixed
governance emitter, decode the governance packet, require the `Any`
target chain, and apply the `RegisterChain` action.  Error strings are
the `ContractError` display strings and `ensure!`/`context` messages of
the source. -/
def handle_submit_wormchain_receiver_update_vaa (ext : Externals) (env : Env)
    (info : MessageInfo) (vaa : List Nat) (st : Storage) :
    Except String (Storage × Response) :=
  match ext.verify_vaa vaa env.block.time with
  | .error e => .error e
  | .ok v =>
    if Chain.of_u16 v.emitter_chain = Chain.Solana ∧ v.emitter_address = GOVERNANCE_EMITTER then
      match ext.parse_gov v.payload with
      | .error _ => .error "failed to parse governance packet"
      | .ok govpacket =>
        if govpacket.chain = Chain.Any then
          match govpacket.action with
          | .RegisterChain chain emitter_address =>
            if chain = Chain.Wormchain then
              match stringFromUtf8 emitter_address with
              | none => .error "failed to parse chain registration address"
              | some wormchain_ibc_receiver_addr =>
                let st1 :=
                  { st with wormchain_ibc_receiver_addr := some wormchain_ibc_receiver_addr }
                let event :=
                  ((Event.new "RegisterChain").add_attribute "chain"
                      chain.display).add_attribute "emitter_address"
                    (addressDisplay emitter_address)
                .ok (st1,
                  ((Response.new.add_attribute "action"
                        "submit_wormchain_receiver_update_vaa").add_attribute "owner"
                      info.sender).add_event event)
            else .error "non wormchain emitter registration"
          | _ => .error "unsupported governance action"
        else .error "this governance VAA is for another chain"
    else .error "non governance vaa"

/-- Embedding of `execute` (contract.rs lines 67–82): dispatch on the
message variant.  The core bridge's `SubmitVAA` delegation touches only
the core bridge's own storage keys, so this contract's storage is
returned unchanged there. -/
def execute (ext : Externals) (env : Env) (info : MessageInfo) (msg : ExecuteMsg)
    (st : Storage) : Except String (Storage × Response) :=
  match msg with
  | .SubmitUpdateWormchainReceiverVAA vaa =>
    handle_submit_wormchain_receiver_update_vaa ext env info vaa st
  | .CoreExecute core_msg =>
    match core_msg with
    | CoreExecuteMsg.SubmitVAA vaa =>
      match ext.core_execute info (CoreExecuteMsg.SubmitVAA vaa) with
      | .error _ => .error "failed core submit_vaa execution"
      | .ok r => .ok (st, r)
    | CoreExecuteMsg.PostMessage message nonce =>
      match post_message_ibc ext env info (CoreExecuteMsg.PostMessage message nonce) st with
      | .error e => .error e
      | .ok r => .ok (st, r)

/-- The three entry points of the contract, as one operation type. -/
inductive Op where
  | instantiateOp
  | executeOp (info : MessageInfo) (msg : ExecuteMsg)
  | migrateOp
  deriving Repr

/-- Committed effect of one entry-point call: on success the new
storage, on failure the old storage (the host discards all writes of a
failed call — spec section 5's all-or-nothing commit). -/
def apply_op (ext : Externals) (env : Env) (op : Op) (st : Storage) :
    Storage × Except String Response :=
  match op with
  | .instantiateOp =>
    match instantiate ext st with
    | .ok (st1, r) => (st1, .ok r)
    | .error e => (st, .error e)
  | .executeOp info msg =>
    match execute ext env info msg st with
    | .ok (st1, r) => (st1, .ok r)
    | .error e => (st, .error e)
  | .migrateOp =>
    match migrate ext st with
    | .ok (st1, r) => (st1, .ok r)
    | .error e => (st, .error e)

end WormholeIbc

/-! ### The wormchain-ibc-receiver contract -/

/-- Model of the receiver's `ChainConnectionResponse` (msg.rs): the
registered connection id as bytes. -/
structure ChainConnectionResponse where
  connection_id : List Nat
  deriving DecidableEq, Repr

namespace Receiver

/-- Persistent storage of the wormchain-ibc-receiver contract: the cw2
contract version item, and the RegisteredAddress singleton the spec's
ChainConnection query reads (its declaring module is not under
`src/`). -/
structure Storage where
  contract_info : Option ContractVersion
  chain_connection : Option (List Nat)
  deriving DecidableEq, Repr

/-- The contract name constant from the receiver's `contract.rs`. -/
def CONTRACT_NAME : String := "crates.io:wormchain-ibc-receiver"

/-- Embedding of the receiver's `instantiate` (contract.rs lines
12–25): write the contract name/version and return the three
attributes.  `contract_version` is the build-supplied
`env!("CARGO_PKG_VERSION")` (Cargo.toml is not under `src/`), so it is
a parameter. -/
def instantiate (contract_version : String) (info : MessageInfo) (st : Storage) :
    Except String (Storage × Response) :=
  let st1 := { st with contract_info := some ⟨CONTRACT_NAME, contract_version⟩ }
  .ok (st1,
    ((Response.new.add_attribute "action" "instantiate").add_attribute "owner"
        info.sender).add_attribute "version" contract_version)

/-- Embedding of the receiver's `migrate` (contract.rs lines 28–48):
check the stored contract name, parse both versions, require strict
increase, overwrite the stored version, and return a default
response. -/
def migrate (contract_version : String) (st : Storage) :
    Except String (Storage × Response) :=
  match st.contract_info with
  | none => .error "cw2 contract info not found"
  | some ver =>
    if ver.contract ≠ CONTRACT_NAME then
      .error "Can only upgrade from same type"
    else
      match Semver.parse ver.version with
      | none => .error "could not parse saved contract version"
      | some saved_version =>
        match Semver.parse contract_version with
        | none => .error "could not parse new contract version"
        | some new_version =>
          if Semver.compareVer saved_version new_version ≠ .lt then
            .error "Cannot upgrade from a newer or equal version"
          else
            .ok ({ st with contract_info := some ⟨CONTRACT_NAME, contract_version⟩ },
              Response.default)

/-- Modelled from the spec: the execute handler for
`SubmitUpdateChainConnection{vaas}` (declared in the receiver's msg.rs;
its handler body is not under `src/`).  Per spec section 4.2, the
attestations are processed strictly sequentially through the
per-attestation handler `process`, and the first failure aborts the
whole submission. -/
def submit_update_chain_connection
    (process : Storage → List Nat → Except String Storage) :
    Storage → List (List Nat) → Except String Storage
  | st, [] => .ok st
  | st, v :: vs =>
    match process st v with
    | .error e => .error e
    | .ok st1 => submit_update_chain_connection process st1 vs

/-- Committed effect of one batch submission: on success the new
storage, on failure the old storage (the host discards all writes of a
failed call — spec section 5's all-or-nothing commit). -/
def commit_submit (process : Storage → List Nat → Except String Storage)
    (st : Storage) (vaas : List (List Nat)) : Storage :=
  match submit_update_chain_connection process st vaas with
  | .ok st1 => st1
  | .error _ => st

/-- Modelled from the spec: the `ChainConnection(chainId)` query
handler (declared in the receiver's msg.rs; its handler body is not
under `src/`).  Per spec section 6, it returns the currently registered
counterparty address as the connection id, reading but never writing
storage. -/
def query_chain_connection (st : Storage) (_chain_id : Nat) :
    Option ChainConnectionResponse :=
  st.chain_connection.map (fun b => ⟨b⟩)

end Receiver

/-! ### Concrete evaluation inputs used by witnesses and counterexamples -/

/-- A concrete external-collaborator bundle: the verifier accepts every
byte string as a governance VAA from the trusted emitter, the decoder
yields a well-formed `RegisterChain` packet for this chain, the core
bridge succeeds with an empty response, and one channel is bound to the
registered counterparty. -/
def extW0 : WormholeIbc.Externals where
  contract_version := "0.2.0"
  verify_vaa := fun _ _ => .ok ⟨1, GOVERNANCE_EMITTER, [1]⟩
  parse_gov := fun _ => .ok ⟨Chain.Any, .RegisterChain Chain.Wormchain [97, 98, 99, 100]⟩
  core_instantiate := .ok Response.default
  core_execute := fun _ _ => .ok Response.default
  core_migrate := .ok Response.default
  list_channels := .ok [⟨⟨"wasm.selfport", "channel-42"⟩, ⟨"wasm.abcd", "channel-7"⟩⟩]
  to_binary := fun _ => .ok [0]

/-- A concrete wormhole-ibc storage: version record set, counterparty
`"abcd"` registered. -/
def stW0 : WormholeIbc.Storage := ⟨some ⟨"crates.io:wormhole-ibc", "0.1.0"⟩, some "abcd"⟩

/-- A concrete environment: block height 55, block time 1000 seconds,
executing inside transaction 7. -/
def envW0 : Env := ⟨⟨55, 1000⟩, some ⟨7⟩⟩

/-- A concrete caller. -/
def infoW0 : MessageInfo := ⟨"alice"⟩

/-- Externals whose verifier accepts a VAA from chain 2 (not Solana)
with the governance address: an untrusted emitter. -/
def extC1 : WormholeIbc.Externals :=
  { extW0 with verify_vaa := fun _ _ => .ok ⟨2, GOVERNANCE_EMITTER, [1]⟩ }

/-- Externals whose decoder yields a packet targeting Solana rather
than the wildcard `Any`. -/
def extC8 : WormholeIbc.Externals :=
  { extW0 with parse_gov := fun _ => .ok ⟨Chain.Solana, .RegisterChain Chain.Wormchain [97]⟩ }

/-- A concrete stored ContractVersion: the receiver's name at version
0.1.0. -/
def cvC4 : ContractVersion := ⟨"crates.io:wormchain-ibc-receiver", "0.1.0"⟩

/-- Externals whose build-supplied package version is 0.1.0. -/
def extC4 : WormholeIbc.Externals := { extW0 with contract_version := "0.1.0" }

/-- A concrete per-attestation handler for witnesses: registers the
attestation's bytes, except that the attestation `[2]` fails. -/
def processC6 : Receiver.Storage → List Nat → Except String Receiver.Storage :=
  fun st v => if v = [2] then .error "boom" else .ok { st with chain_connection := some v }

/-! ### Helper lemmas -/

/-- Either `migrate` fails, or it succeeds having only overwritten the
stored contract version record; the registered address is untouched. -/
lemma WormholeIbc.migrate_core_result_cases (ext : WormholeIbc.Externals)
    (st : WormholeIbc.Storage) :
    (∃ e, WormholeIbc.migrate ext st = .error e)
    ∨ (∃ r, WormholeIbc.migrate ext st =
        .ok ({ st with
          contract_info := some ⟨WormholeIbc.CONTRACT_NAME, ext.contract_version⟩ }, r)) := by
  unfold WormholeIbc.migrate
  rcases hcv : WormholeIbc.get_contract_version st with e | ver <;> simp only [hcv]
  · exact .inl ⟨_, rfl⟩
  · by_cases h1 : ver.contract ≠ WormholeIbc.CONTRACT_NAME
    · rw [if_pos h1]
      exact .inl ⟨_, rfl⟩
    · rw [if_neg h1]
      rcases hp1 : Semver.parse ver.version with _ | sv <;> simp only [hp1]
      · exact .inl ⟨_, rfl⟩
      · rcases hp2 : Semver.parse ext.contract_version with _ | nv <;> simp only [hp2]
        · exact .inl ⟨_, rfl⟩
        · by_cases h2 : Semver.compareVer sv nv ≠ .lt
          · rw [if_pos h2]
            exact .inl ⟨_, rfl⟩
          · rw [if_neg h2]
            rcases hc : ext.core_migrate with e | rr <;> simp only [hc]
            · exact .inl ⟨_, rfl⟩
            · exact .inr ⟨rr, rfl⟩

/-- Either the governance handler fails, or every validation passed —
trusted emitter, `Any` target, own-chain RegisterChain, UTF-8 address —
and it succeeds having overwritten the registered address with the
decoded string. -/
lemma WormholeIbc.handle_submit_result_cases (ext : WormholeIbc.Externals) (env : Env)
    (info : MessageInfo) (vaa : List Nat) (st : WormholeIbc.Storage) :
    (∃ e, WormholeIbc.handle_submit_wormchain_receiver_update_vaa ext env info vaa st =
      .error e)
    ∨ (∃ v bytes s r,
        ext.verify_vaa vaa env.block.time = .ok v
        ∧ Chain.of_u16 v.emitter_chain = Chain.Solana
        ∧ v.emitter_address = GOVERNANCE_EMITTER
        ∧ ext.parse_gov v.payload = .ok ⟨Chain.Any, .RegisterChain Chain.Wormchain bytes⟩
        ∧ stringFromUtf8 bytes = some s
        ∧ WormholeIbc.handle_submit_wormchain_receiver_update_vaa ext env info vaa st =
          .ok ({ st with wormchain_ibc_receiver_addr := some s }, r)) := by
  unfold WormholeIbc.handle_submit_wormchain_receiver_update_vaa
  rcases hv : ext.verify_vaa vaa env.block.time with e | v <;> simp only [hv]
  · exact .inl ⟨_, rfl⟩
  · by_cases ht : Chain.of_u16 v.emitter_chain = Chain.Solana ∧
      v.emitter_address = GOVERNANCE_EMITTER
    · rw [if_pos ht]
      rcases hp : ext.parse_gov v.payload with e | gp <;> simp only [hp]
      · exact .inl ⟨_, rfl⟩
      · obtain ⟨gchain, gaction⟩ := gp
        dsimp only
        by_cases hc : gchain = Chain.Any
        · subst hc
          rw [if_pos rfl]
          rcases gaction with nc | ⟨chain, bytes⟩
          · exact .inl ⟨_, rfl⟩
          · dsimp only
            by_cases hw : chain = Chain.Wormchain
            · subst hw
              rw [if_pos rfl]
              rcases hu : stringFromUtf8 bytes with _ | s <;> simp only [hu]
              · exact .inl ⟨_, rfl⟩
              · exact .inr ⟨v, bytes, s, _, rfl, ht.1, ht.2, hp, hu, rfl⟩
            · rw [if_neg hw]
              exact .inl ⟨_, rfl⟩
        · rw [if_neg hc]
          exact .inl ⟨_, rfl⟩
    · rw [if_neg ht]
      exact .inl ⟨_, rfl⟩

/-- Either the receiver's `migrate` fails, or it succeeds having only
overwritten the stored contract version record. -/
lemma Receiver.migrate_receiver_result_cases (target : String) (st : Receiver.Storage) :
    (∃ e, Receiver.migrate target st = .error e)
    ∨ Receiver.migrate target st =
        .ok ({ st with contract_info := some ⟨Receiver.CONTRACT_NAME, target⟩ },
          Response.default) := by
  unfold Receiver.migrate
  rcases hci : st.contract_info with _ | ver <;> simp only [hci]
  · exact .inl ⟨_, rfl⟩
  · by_cases h1 : ver.contract ≠ Receiver.CONTRACT_NAME
    · rw [if_pos h1]
      exact .inl ⟨_, rfl⟩
    · rw [if_neg h1]
      rcases hp1 : Semver.parse ver.version with _ | sv <;> simp only [hp1]
      · exact .inl ⟨_, rfl⟩
      · rcases hp2 : Semver.parse target with _ | nv <;> simp only [hp2]
        · exact .inl ⟨_, rfl⟩
        · by_cases h2 : Semver.compareVer sv nv ≠ .lt
          · rw [if_pos h2]
            exact .inl ⟨_, rfl⟩
          · rw [if_neg h2]
            exact .inr rfl

/-! ### Claims about the channel resolver -/

/-- C5: for every channel list and registered address `a`, channel
resolution returns the local channel id of the first channel in list
order whose counterparty port id equals `"wasm." ++ a`, and fails with
the not-found error carrying `a` when no channel matches. -/
theorem C5_find_wormchain_channel_first_match (channels : List IbcChannel) (a : String) :
    WormholeIbc.find_wormchain_channel_id channels a =
      match channels.find? (fun c => decide (c.counterparty_endpoint.port_id = "wasm." ++ a)) with
      | some c => .ok c.endpoint.channel_id
      | none => .error ("no channel connecting to wormchain contract " ++ a) := by
  induction channels with
  | nil => rfl
  | cons c cs ih =>
    simp only [WormholeIbc.find_wormchain_channel_id, List.find?]
    by_cases h : c.counterparty_endpoint.port_id = "wasm." ++ a
    · simp [h]
    · simp [h, ih]

/-! ### Claims about the governance handler -/

/-- C1: every attestation accepted by the verifier whose emitter pair
differs from the fixed governance authority (Solana, the governance
emitter) makes the handler fail with the untrusted-emitter error
(`ContractError::InvalidVAAType`, displayed "non governance vaa"), and
the persisted `WORMCHAIN_IBC_RECEIVER_ADDR` is unchanged after the
call. -/
theorem C1_untrusted_emitter_rejected (ext : WormholeIbc.Externals) (env : Env)
    (info : MessageInfo) (vaa : List Nat) (st : WormholeIbc.Storage) (v : ParsedVaa)
    (hv : ext.verify_vaa vaa env.block.time = .ok v)
    (hu : ¬(Chain.of_u16 v.emitter_chain = Chain.Solana ∧
      v.emitter_address = GOVERNANCE_EMITTER)) :
    WormholeIbc.handle_submit_wormchain_receiver_update_vaa ext env info vaa st =
      .error "non governance vaa"
    ∧ (WormholeIbc.apply_op ext env
        (.executeOp info (.SubmitUpdateWormchainReceiverVAA vaa)) st).1.wormchain_ibc_receiver_addr
      = st.wormchain_ibc_receiver_addr := by
  have hmain : WormholeIbc.handle_submit_wormchain_receiver_update_vaa ext env info vaa st =
      .error "non governance vaa" := by
    unfold WormholeIbc.handle_submit_wormchain_receiver_update_vaa
    rw [hv]
    simp [hu]
  refine ⟨hmain, ?_⟩
  simp [WormholeIbc.apply_op, WormholeIbc.execute, hmain]

/-- C1 witness: the untrusted-emitter rejection, evaluated with a
verifier that accepts a VAA from chain 2 with the governance address. -/
theorem C1_untrusted_emitter_rejected_witness :
    WormholeIbc.handle_submit_wormchain_receiver_update_vaa extC1 envW0 infoW0 [0] stW0 =
      .error "non governance vaa"
    ∧ (WormholeIbc.apply_op extC1 envW0
        (.executeOp infoW0 (.SubmitUpdateWormchainReceiverVAA [0])) stW0).1.wormchain_ibc_receiver_addr
      = stW0.wormchain_ibc_receiver_addr :=
  C1_untrusted_emitter_rejected extC1 envW0 infoW0 [0] stW0 ⟨2, GOVERNANCE_EMITTER, [1]⟩
    (by decide) (by decide)

/-- C8: every trusted attestation whose payload decodes to a governance
packet with a target chain other than `Any` makes the handler fail with
the wrong-target-chain error, and the persisted
`WORMCHAIN_IBC_RECEIVER_ADDR` is unchanged after the call. -/
theorem C8_wrong_target_chain_rejected (ext : WormholeIbc.Externals) (env : Env)
    (info : MessageInfo) (vaa : List Nat) (st : WormholeIbc.Storage) (v : ParsedVaa)
    (gp : GovernancePacket)
    (hv : ext.verify_vaa vaa env.block.time = .ok v)
    (ht : Chain.of_u16 v.emitter_chain = Chain.Solana ∧
      v.emitter_address = GOVERNANCE_EMITTER)
    (hp : ext.parse_gov v.payload = .ok gp)
    (hc : gp.chain ≠ Chain.Any) :
    WormholeIbc.handle_submit_wormchain_receiver_update_vaa ext env info vaa st =
      .error "this governance VAA is for another chain"
    ∧ (WormholeIbc.apply_op ext env
        (.executeOp info (.SubmitUpdateWormchainReceiverVAA vaa)) st).1.wormchain_ibc_receiver_addr
      = st.wormchain_ibc_receiver_addr := by
  have hmain : WormholeIbc.handle_submit_wormchain_receiver_update_vaa ext env info vaa st =
      .error "this governance VAA is for another chain" := by
    unfold WormholeIbc.handle_submit_wormchain_receiver_update_vaa
    rw [hv]
    simp [ht, hp, hc]
  refine ⟨hmain, ?_⟩
  simp [WormholeIbc.apply_op, WormholeIbc.execute, hmain]

/-- C8 witness: the wrong-target-chain rejection, evaluated with a
decoder yielding a packet targeting Solana rather than `Any`. -/
theorem C8_wrong_target_chain_rejected_witness :
    WormholeIbc.handle_submit_wormchain_receiver_update_vaa extC8 envW0 infoW0 [0] stW0 =
      .error "this governance VAA is for another chain"
    ∧ (WormholeIbc.apply_op extC8 envW0
        (.executeOp infoW0 (.SubmitUpdateWormchainReceiverVAA [0])) stW0).1.wormchain_ibc_receiver_addr
      = stW0.wormchain_ibc_receiver_addr :=
  C8_wrong_target_chain_rejected extC8 envW0 infoW0 [0] stW0 ⟨1, GOVERNANCE_EMITTER, [1]⟩
    ⟨Chain.Solana, .RegisterChain Chain.Wormchain [97]⟩ (by decide) (by decide) (by decide)
    (by decide)

/-- C2 counterexample: a trusted RegisterChain attestation for this
chain whose emitter address bytes decode to `"abcd"`.  The handler
persists `"abcd"` and emits the RegisterChain event, but the response's
action attribute is `submit_wormchain_receiver_update_vaa`, so the
attribute `action=submit_update_vaa` asserted by the claim is not
carried. -/
theorem C2_counterexample_action_attribute :
    WormholeIbc.handle_submit_wormchain_receiver_update_vaa extW0 envW0 infoW0 [0] stW0 =
      .ok (⟨stW0.contract_info, some "abcd"⟩,
        ⟨[], [⟨"action", "submit_wormchain_receiver_update_vaa"⟩, ⟨"owner", "alice"⟩],
          [⟨"RegisterChain", [⟨"chain", "wormchain"⟩, ⟨"emitter_address", "61626364"⟩]⟩]⟩)
    ∧ Attribute.mk "action" "submit_update_vaa" ∉
        [Attribute.mk "action" "submit_wormchain_receiver_update_vaa",
          Attribute.mk "owner" "alice"] := by
  constructor
  · decide
  · decide

/-- C2 (amended): for every trusted RegisterChain attestation targeting
chain `Any` that names this receiver's own chain (Wormchain) and whose
emitter address bytes decode as UTF-8 to `s`, the handler persists `s`
as the registered address (full overwrite of any prior value) and
returns a response with attributes
`action=submit_wormchain_receiver_update_vaa` and `owner=<caller>` plus
a `RegisterChain` event carrying attributes `chain` and
`emitter_address`. -/
theorem C2_register_chain_persists_and_responds (ext : WormholeIbc.Externals) (env : Env)
    (info : MessageInfo) (vaa : List Nat) (st : WormholeIbc.Storage) (v : ParsedVaa)
    (bytes : List Nat) (s : String)
    (hv : ext.verify_vaa vaa env.block.time = .ok v)
    (ht : Chain.of_u16 v.emitter_chain = Chain.Solana ∧
      v.emitter_address = GOVERNANCE_EMITTER)
    (hp : ext.parse_gov v.payload = .ok ⟨Chain.Any, .RegisterChain Chain.Wormchain bytes⟩)
    (hu : stringFromUtf8 bytes = some s) :
    WormholeIbc.handle_submit_wormchain_receiver_update_vaa ext env info vaa st =
      .ok ({ st with wormchain_ibc_receiver_addr := some s },
        ⟨[], [⟨"action", "submit_wormchain_receiver_update_vaa"⟩, ⟨"owner", info.sender⟩],
          [⟨"RegisterChain",
            [⟨"chain", Chain.Wormchain.display⟩,
              ⟨"emitter_address", addressDisplay bytes⟩]⟩]⟩) := by
  unfold WormholeIbc.handle_submit_wormchain_receiver_update_vaa
  rw [hv]
  simp [ht, hp, hu, Response.new, Response.default, Response.add_attribute,
    Response.add_event, Event.new, Event.add_attribute]

/-- C2 witness: the amended RegisterChain behavior evaluated at the
concrete trusted attestation whose address bytes decode to `"abcd"`. -/
theorem C2_register_chain_persists_and_responds_witness :
    WormholeIbc.handle_submit_wormchain_receiver_update_vaa extW0 envW0 infoW0 [0] stW0 =
      .ok ({ stW0 with wormchain_ibc_receiver_addr := some "abcd" },
        ⟨[], [⟨"action", "submit_wormchain_receiver_update_vaa"⟩, ⟨"owner", infoW0.sender⟩],
          [⟨"RegisterChain",
            [⟨"chain", Chain.Wormchain.display⟩,
              ⟨"emitter_address", addressDisplay [97, 98, 99, 100]⟩]⟩]⟩) :=
  C2_register_chain_persists_and_responds extW0 envW0 infoW0 [0] stW0
    ⟨1, GOVERNANCE_EMITTER, [1]⟩ [97, 98, 99, 100] "abcd" (by decide) (by decide) (by decide)
    (by decide)

/-! ### Claims about the version gate -/

example : Semver.parse "0.1.0" = some ⟨0, 1, 0, [], []⟩ := by decide

example : Semver.compareVer ⟨0, 1, 0, [], []⟩ ⟨0, 2, 0, [], []⟩ = .lt := by decide

/-- C4: for every stored ContractVersion whose version string parses as
`sv` and target version string parsing as `nv`, each contract's
`migrate` succeeds iff the stored name equals that contract's expected
name and `nv` is strictly greater than `sv` in semantic-version order;
a name mismatch fails with the version-mismatch error, an equal or
smaller target fails with the not-newer error, and on success the
stored ContractVersion is overwritten with the expected name and the
target version (for wormhole-ibc, under a succeeding core-bridge
migration hook whose result is propagated). -/
theorem C4_migrate_version_gate (ext : WormholeIbc.Externals) (target : String)
    (cv : ContractVersion) (a : Option String) (cc : Option (List Nat))
    (sv nv : Semver.Version) (rc : Response)
    (hs : Semver.parse cv.version = some sv)
    (hn : Semver.parse target = some nv)
    (hx : ext.contract_version = target)
    (hcore : ext.core_migrate = .ok rc) :
    ((∃ st1 r, Receiver.migrate target ⟨some cv, cc⟩ = .ok (st1, r)) ↔
      (cv.contract = Receiver.CONTRACT_NAME ∧ Semver.compareVer sv nv = .lt))
    ∧ (∀ st1 r, Receiver.migrate target ⟨some cv, cc⟩ = .ok (st1, r) →
        st1 = ⟨some ⟨Receiver.CONTRACT_NAME, target⟩, cc⟩)
    ∧ (cv.contract ≠ Receiver.CONTRACT_NAME →
        Receiver.migrate target ⟨some cv, cc⟩ = .error "Can only upgrade from same type")
    ∧ (cv.contract = Receiver.CONTRACT_NAME → Semver.compareVer sv nv ≠ .lt →
        Receiver.migrate target ⟨some cv, cc⟩ =
          .error "Cannot upgrade from a newer or equal version")
    ∧ ((∃ st1 r, WormholeIbc.migrate ext ⟨some cv, a⟩ = .ok (st1, r)) ↔
      (cv.contract = WormholeIbc.CONTRACT_NAME ∧ Semver.compareVer sv nv = .lt))
    ∧ (∀ st1 r, WormholeIbc.migrate ext ⟨some cv, a⟩ = .ok (st1, r) →
        st1 = ⟨some ⟨WormholeIbc.CONTRACT_NAME, target⟩, a⟩)
    ∧ (cv.contract ≠ WormholeIbc.CONTRACT_NAME →
        WormholeIbc.migrate ext ⟨some cv, a⟩ = .error "Can only upgrade from same type")
    ∧ (cv.contract = WormholeIbc.CONTRACT_NAME → Semver.compareVer sv nv ≠ .lt →
        WormholeIbc.migrate ext ⟨some cv, a⟩ =
          .error "Cannot upgrade from a newer version") := by
  have hR : Receiver.migrate target ⟨some cv, cc⟩ =
      if cv.contract = Receiver.CONTRACT_NAME then
        (if Semver.compareVer sv nv = .lt then
          .ok (⟨some ⟨Receiver.CONTRACT_NAME, target⟩, cc⟩, Response.default)
        else .error "Cannot upgrade from a newer or equal version")
      else .error "Can only upgrade from same type" := by
    simp only [Receiver.migrate, hs, hn, ite_not]
  have hW : WormholeIbc.migrate ext ⟨some cv, a⟩ =
      if cv.contract = WormholeIbc.CONTRACT_NAME then
        (if Semver.compareVer sv nv = .lt then
          .ok (⟨some ⟨WormholeIbc.CONTRACT_NAME, target⟩, a⟩, rc)
        else .error "Cannot upgrade from a newer version")
      else .error "Can only upgrade from same type" := by
    simp only [WormholeIbc.migrate, WormholeIbc.get_contract_version,
      WormholeIbc.set_contract_version, hs, hx, hn, hcore, ite_not]
  rw [hR, hW]
  by_cases h1 : cv.contract = Receiver.CONTRACT_NAME <;>
    by_cases h1w : cv.contract = WormholeIbc.CONTRACT_NAME <;>
    by_cases h2 : Semver.compareVer sv nv = .lt <;>
    simp_all

/-- C4 witness: with stored name/version `crates.io:wormchain-ibc-receiver`/
`0.1.0`, migrating the differently-named wormhole-ibc contract fails
with the version-mismatch error, and migrating the receiver to the
equal version `0.1.0` fails with the not-newer error. -/
theorem C4_migrate_version_gate_witness :
    WormholeIbc.migrate extW0 ⟨some cvC4, some "abcd"⟩ =
      .error "Can only upgrade from same type"
    ∧ Receiver.migrate "0.1.0" ⟨some cvC4, some [1]⟩ =
      .error "Cannot upgrade from a newer or equal version" :=
  ⟨(C4_migrate_version_gate extW0 "0.2.0" cvC4 (some "abcd") (some [1])
      ⟨0, 1, 0, [], []⟩ ⟨0, 2, 0, [], []⟩ Response.default (by decide) (by decide) (by decide)
      (by decide)).2.2.2.2.2.2.1 (by decide),
    (C4_migrate_version_gate extC4 "0.1.0" cvC4 (some "abcd") (some [1])
      ⟨0, 1, 0, [], []⟩ ⟨0, 1, 0, [], []⟩ Response.default (by decide) (by decide) (by decide)
      (by decide)).2.2.2.1 (by decide) (by decide)⟩

/-! ### Claims about the message relay -/

/-- C10: whenever `post_message_ibc` succeeds, the returned response is
`Response::default()` — no sub-messages, no attributes, no events — so
the `IbcMsg::SendPacket` value constructed inside the function is never
attached to the caller-visible response. -/
theorem C10_post_message_returns_default_response (ext : WormholeIbc.Externals) (env : Env)
    (info : MessageInfo) (msg : CoreExecuteMsg) (st : WormholeIbc.Storage) (r : Response)
    (h : WormholeIbc.post_message_ibc ext env info msg st = .ok r) :
    r = Response.default ∧ r.messages = [] ∧ r.attributes = [] ∧ r.events = [] := by
  have hr : r = Response.default := by
    unfold WormholeIbc.post_message_ibc at h
    rcases h1 : ext.list_channels with e | chans <;> simp only [h1] at h
    · cases h
    · rcases h2 : st.wormchain_ibc_receiver_addr with _ | addr <;> simp only [h2] at h
      · cases h
      · rcases h3 : WormholeIbc.find_wormchain_channel_id chans addr with e | cid <;>
          simp only [h3] at h
        · cases h
        · rcases h4 : ext.core_execute info msg with e | res <;> simp only [h4] at h
          · cases h
          · split at h
            · cases h
            · injection h with h
              exact h.symm
  subst hr
  exact ⟨rfl, rfl, rfl, rfl⟩

/-- C10 witness: a successful relay call with a registered counterparty
and a matching channel returns exactly the default response. -/
theorem C10_post_message_returns_default_response_witness :
    Response.default = Response.default ∧ Response.default.messages = []
    ∧ Response.default.attributes = [] ∧ Response.default.events = [] :=
  C10_post_message_returns_default_response extW0 envW0 infoW0 (.PostMessage [5] 0) stW0
    Response.default (by decide)

/-- C3: evaluation at a concrete relay call that succeeds end to end.
The `IbcMsg::SendPacket` components the code builds are exactly the
claim's envelope — the core response enriched with `message.tx_index`
and `message.block_height`, the resolved channel, and the timeout
`block time + PACKET_LIFETIME` — but the function's returned response
is `Response::default()` with no messages, so the envelope is
constructed and then dropped rather than submitted for transport. -/
theorem C3_publish_envelope_constructed_but_dropped :
    WormholeIbc.post_message_ibc_dropped_packet extW0 envW0 infoW0 (.PostMessage [5] 0) stW0 =
      .ok ("channel-42",
        WormholeIbcPacketMsg.Publish
          ⟨[], [⟨"message.tx_index", "7"⟩, ⟨"message.block_height", "55"⟩], []⟩,
        1000 + WormholeIbc.PACKET_LIFETIME)
    ∧ WormholeIbc.post_message_ibc extW0 envW0 infoW0 (.PostMessage [5] 0) stW0 =
      .ok Response.default := by
  constructor
  · decide
  · decide

/-! ### The registered-address write invariant -/

/-- C7: across every entry point (instantiate, execute, migrate), the
committed registered address either is exactly what it was before the
call, or the call was a `SubmitUpdateWormchainReceiverVAA` execution
that passed every validation (verified attestation, trusted emitter,
`Any` target, own-chain RegisterChain, UTF-8 address), succeeded, and
set the address to the decoded string; in particular no operation ever
deletes a registered address. -/
theorem C7_registered_address_written_only_by_register_chain
    (ext : WormholeIbc.Externals) (env : Env) (op : WormholeIbc.Op)
    (st : WormholeIbc.Storage) :
    ((WormholeIbc.apply_op ext env op st).1.wormchain_ibc_receiver_addr =
        st.wormchain_ibc_receiver_addr
      ∨ ∃ info vaa v bytes s,
        op = .executeOp info (.SubmitUpdateWormchainReceiverVAA vaa)
        ∧ ext.verify_vaa vaa env.block.time = .ok v
        ∧ Chain.of_u16 v.emitter_chain = Chain.Solana
        ∧ v.emitter_address = GOVERNANCE_EMITTER
        ∧ ext.parse_gov v.payload = .ok ⟨Chain.Any, .RegisterChain Chain.Wormchain bytes⟩
        ∧ stringFromUtf8 bytes = some s
        ∧ (WormholeIbc.apply_op ext env op st).1.wormchain_ibc_receiver_addr = some s
        ∧ ∃ r, (WormholeIbc.apply_op ext env op st).2 = .ok r)
    ∧ ((WormholeIbc.apply_op ext env op st).1.wormchain_ibc_receiver_addr = none →
        st.wormchain_ibc_receiver_addr = none) := by
  have D : (WormholeIbc.apply_op ext env op st).1.wormchain_ibc_receiver_addr =
        st.wormchain_ibc_receiver_addr
      ∨ ∃ info vaa v bytes s,
        op = .executeOp info (.SubmitUpdateWormchainReceiverVAA vaa)
        ∧ ext.verify_vaa vaa env.block.time = .ok v
        ∧ Chain.of_u16 v.emitter_chain = Chain.Solana
        ∧ v.emitter_address = GOVERNANCE_EMITTER
        ∧ ext.parse_gov v.payload = .ok ⟨Chain.Any, .RegisterChain Chain.Wormchain bytes⟩
        ∧ stringFromUtf8 bytes = some s
        ∧ (WormholeIbc.apply_op ext env op st).1.wormchain_ibc_receiver_addr = some s
        ∧ ∃ r, (WormholeIbc.apply_op ext env op st).2 = .ok r := by
    cases op with
    | instantiateOp =>
      left
      rcases hci : ext.core_instantiate with e | r <;>
        simp [WormholeIbc.apply_op, WormholeIbc.instantiate,
          WormholeIbc.set_contract_version, hci]
    | migrateOp =>
      left
      rcases WormholeIbc.migrate_core_result_cases ext st with ⟨e, he⟩ | ⟨r, hok⟩
      · simp [WormholeIbc.apply_op, he]
      · simp [WormholeIbc.apply_op, hok]
    | executeOp info msg =>
      cases msg with
      | CoreExecute core_msg =>
        left
        cases core_msg with
        | SubmitVAA vaa =>
          rcases hce : ext.core_execute info (.SubmitVAA vaa) with e | r <;>
            simp [WormholeIbc.apply_op, WormholeIbc.execute, hce]
        | PostMessage m n =>
          rcases hpm : WormholeIbc.post_message_ibc ext env info (.PostMessage m n) st
              with e | r <;>
            simp [WormholeIbc.apply_op, WormholeIbc.execute, hpm]
      | SubmitUpdateWormchainReceiverVAA vaa =>
        rcases WormholeIbc.handle_submit_result_cases ext env info vaa st with
          ⟨e, he⟩ | ⟨v, bytes, s, r, hv, h1, h2, hp, hu, hok⟩
        · left
          simp [WormholeIbc.apply_op, WormholeIbc.execute, he]
        · right
          refine ⟨info, vaa, v, bytes, s, rfl, hv, h1, h2, hp, hu, ?_, r, ?_⟩ <;>
            simp [WormholeIbc.apply_op, WormholeIbc.execute, hok]
  refine ⟨D, fun hnone => ?_⟩
  rcases D with hL | ⟨info, vaa, v, bytes, s, _, _, _, _, _, _, hsome, _⟩
  · rw [hL] at hnone
    exact hnone
  · rw [hsome] at hnone
    cases hnone

/-- C7 witness: the invariant's never-deleted component, instantiated
at a concrete migrate call. -/
theorem C7_registered_address_written_only_by_register_chain_witness :
    (WormholeIbc.apply_op extW0 envW0 .migrateOp stW0).1.wormchain_ibc_receiver_addr = none →
      stW0.wormchain_ibc_receiver_addr = none :=
  (C7_registered_address_written_only_by_register_chain extW0 envW0 .migrateOp stW0).2

/-! ### Claims about the receiver's batch submission and query -/

/-- C6: batch processing is strictly sequential and all-or-nothing —
when the attestations before `v` all succeed and processing `v` fails,
the whole submission fails with that error, and the committed storage
is exactly the storage from before the call (no effect of the earlier
successful attestations survives). -/
theorem C6_batch_sequential_all_or_nothing
    (process : Receiver.Storage → List Nat → Except String Receiver.Storage)
    (st st1 : Receiver.Storage) (vs1 : List (List Nat)) (v : List Nat)
    (vs2 : List (List Nat)) (e : String)
    (h1 : Receiver.submit_update_chain_connection process st vs1 = .ok st1)
    (h2 : process st1 v = .error e) :
    Receiver.submit_update_chain_connection process st (vs1 ++ v :: vs2) = .error e
    ∧ Receiver.commit_submit process st (vs1 ++ v :: vs2) = st := by
  have hmain : ∀ st0, Receiver.submit_update_chain_connection process st0 vs1 = .ok st1 →
      Receiver.submit_update_chain_connection process st0 (vs1 ++ v :: vs2) = .error e := by
    clear h1
    induction vs1 with
    | nil =>
      intro st0 h0
      simp only [Receiver.submit_update_chain_connection] at h0
      injection h0 with h0
      subst h0
      simp [Receiver.submit_update_chain_connection, h2]
    | cons w ws ih =>
      intro st0 h0
      simp only [Receiver.submit_update_chain_connection, List.cons_append] at h0 ⊢
      rcases hw : process st0 w with e0 | stw <;> simp only [hw] at h0 ⊢
      · cases h0
      · exact ih stw h0
  refine ⟨hmain st h1, ?_⟩
  simp [Receiver.commit_submit, hmain st h1]

/-- C6 witness: a three-attestation batch whose second member fails
leaves the pre-call storage committed, first attestation's effect
included. -/
theorem C6_batch_sequential_all_or_nothing_witness :
    Receiver.submit_update_chain_connection processC6 ⟨none, none⟩ [[1], [2], [3]] =
      .error "boom"
    ∧ Receiver.commit_submit processC6 ⟨none, none⟩ [[1], [2], [3]] = ⟨none, none⟩ :=
  C6_batch_sequential_all_or_nothing processC6 ⟨none, none⟩ ⟨none, some [1]⟩ [[1]] [2] [[3]]
    "boom" (by decide) (by decide)

/-- C9: the ChainConnection query returns exactly the currently
registered address (as the connection id) and is a pure function of the
committed storage; the receiver's instantiate and migrate entry points
and any failed batch submission leave it unchanged, so two queries with
no intervening successful RegisterChain agree. -/
theorem C9_chain_connection_query_reflects_state (target : String) (info : MessageInfo)
    (process : Receiver.Storage → List Nat → Except String Receiver.Storage)
    (st : Receiver.Storage) (vaas : List (List Nat)) (c : Nat) :
    Receiver.query_chain_connection st c = st.chain_connection.map (fun b => ⟨b⟩)
    ∧ (∀ st2 r, Receiver.migrate target st = .ok (st2, r) →
        Receiver.query_chain_connection st2 c = Receiver.query_chain_connection st c)
    ∧ (∀ st2 r, Receiver.instantiate target info st = .ok (st2, r) →
        Receiver.query_chain_connection st2 c = Receiver.query_chain_connection st c)
    ∧ (∀ e, Receiver.submit_update_chain_connection process st vaas = .error e →
        Receiver.query_chain_connection (Receiver.commit_submit process st vaas) c =
          Receiver.query_chain_connection st c) := by
  refine ⟨rfl, ?_, ?_, ?_⟩
  · intro st2 r h
    rcases Receiver.migrate_receiver_result_cases target st with ⟨e, he⟩ | hok
    · rw [he] at h
      cases h
    · rw [hok] at h
      injection h with h
      cases h
      rfl
  · intro st2 r h
    unfold Receiver.instantiate at h
    injection h with h
    cases h
    rfl
  · intro e h
    simp [Receiver.commit_submit, h]

/-- C9 witness: the query evaluated on a concrete storage with `[7]`
registered. -/
theorem C9_chain_connection_query_reflects_state_witness :
    Receiver.query_chain_connection ⟨none, some [7]⟩ 3104 = some ⟨[7]⟩ :=
  (C9_chain_connection_query_reflects_state "0.1.0" infoW0 processC6 ⟨none, some [7]⟩ []
    3104).1.trans (by decide)


